import Mathlib

/-!
Verification of the SIAHL scraping core (`src/services/scraper/`) of the
siahl-telegram-bot repository: a shallow embedding in Lean of the HTTP fetch
layer (`base_scraper.py`), the standings extractor (`team_scraper.py`) and the
schedule extractor (`schedule_scraper.py`), together with theorems settling
the stated properties of these components.

Conventions of the embedding:
- Python strings are Lean `String`s; character-level work is done on
  `List Char` via `String.toList` so that every definition is structurally
  recursive and kernel-computable.
- HTML elements are modelled by the pieces of data the scrapers actually
  read from them (cell text, anchor text/href, sibling chains).
- The asynchronous fetch loop of `BaseScraper._fetch_html` is modelled as a
  function from a script of per-attempt network outcomes to the trace of
  observable events (rate-limit waits, requests, sleeps) and the final result.
- Percent-decoding and plus-decoding inside `urllib.parse.parse_qs`, and
  the non-ASCII digit support of Python `int()`, are not modelled; all inputs of
  interest are plain ASCII.
-/

namespace Siahl

/-! ## Character-list string utilities (library behaviour used by the code) -/

/-- Split a character list on a separator character, keeping empty groups,
mirroring Python `str.split(sep)` semantics (`"".split` gives one empty
group, `"a&"` gives two groups). -/
def splitOnChar (sep : Char) : List Char → List (List Char)
  | [] => [[]]
  | c :: rest =>
    let r := splitOnChar sep rest
    if c = sep then
      [] :: r
    else
      match r with
      | [] => [[c]]
      | g :: gs => (c :: g) :: gs

/-- `isPrefixL p s` : `p` is a prefix of `s` (decidable, Bool-valued). -/
def isPrefixL : List Char → List Char → Bool
  | [], _ => true
  | _ :: _, [] => false
  | p :: ps, c :: cs => p = c && isPrefixL ps cs

/-- `containsSub pat s` : `pat` occurs as a contiguous substring of `s`,
mirroring Python `pat in s`. -/
def containsSub (pat : List Char) : List Char → Bool
  | [] => isPrefixL pat []
  | c :: rest => isPrefixL pat (c :: rest) || containsSub pat rest

/-- Python `pat in s` on strings. -/
def strContains (s pat : String) : Bool :=
  containsSub pat.toList s.toList

/-- Everything after the first occurrence of `c`, or `none` when `c` does not
occur: models `s.split(c, 1)[1]` guarded by `c in s`. -/
def afterChar (c : Char) : List Char → Option (List Char)
  | [] => none
  | x :: rest => if x = c then some rest else afterChar c rest

/-- Split at the first occurrence of `c` into (before, after), or `none` when
`c` does not occur: models `s.split(c, 1)` yielding two parts. -/
def splitOnceChar (c : Char) : List Char → Option (List Char × List Char)
  | [] => none
  | x :: rest =>
    if x = c then
      some ([], rest)
    else
      match splitOnceChar c rest with
      | some (pre, post) => some (x :: pre, post)
      | none => none

/-- The ASCII whitespace characters stripped by Python `str.strip()` /
`int()`. -/
def isPyWs (c : Char) : Bool :=
  c = ' ' || c = '\t' || c = '\n' || c = '\r' || c = '\x0b' || c = '\x0c'

/-- Strip leading and trailing Python whitespace. -/
def pyStrip (l : List Char) : List Char :=
  ((l.dropWhile isPyWs).reverse.dropWhile isPyWs).reverse

/-- Decimal digits interleaved with single underscores, after the first digit:
tail part of the grammar accepted by Python `int()`. -/
def usDigitsTail : List Char → Bool
  | [] => true
  | c :: rest =>
    if c = '_' then
      match rest with
      | [] => false
      | d :: rest2 => d.isDigit && usDigitsTail rest2
    else
      c.isDigit && usDigitsTail rest

/-- Non-empty digit string with optional single underscores between digits:
the digit-part grammar accepted by Python `int()` in base 10. -/
def usDigits : List Char → Bool
  | [] => false
  | c :: rest => c.isDigit && usDigitsTail rest

/-- Numeric value of a list of decimal digit characters. -/
def digitsToNat (l : List Char) : Nat :=
  l.foldl (fun n c => n * 10 + (c.toNat - 48)) 0

/-- Model of Python `int(s)` for a `str` argument: strips ASCII whitespace,
accepts an optional sign followed by digits (with optional single
underscores between digits); returns `none` where Python raises
`ValueError`. -/
def pyIntParse (s : String) : Option Int :=
  let l := pyStrip s.toList
  let signAndRest : Bool × List Char :=
    match l with
    | '-' :: r => (true, r)
    | '+' :: r => (false, r)
    | r => (false, r)
  if usDigits signAndRest.2 then
    let n : Nat := digitsToNat (signAndRest.2.filter (fun c => c ≠ '_'))
    some (if signAndRest.1 then -(n : Int) else (n : Int))
  else
    none

/-! ## Python keyword-argument binding (for `ScheduleScraper.__init__`)

`base_scraper.py:33` declares `def __init__(self):` — no parameter besides
`self` — while `schedule_scraper.py:23` calls
`super().__init__(base_url=settings.siahl_base_url)`. We model CPython's
binding of keyword arguments to a parameter list: a keyword argument whose
name is not among the declared parameters raises `TypeError`. -/

/-- Result of binding a Python call's arguments against a signature. -/
inductive PyCallResult where
  | ok : PyCallResult
  | typeError (unexpectedKwarg : String) : PyCallResult
deriving DecidableEq

/-- Bind keyword arguments against the declared parameter names: the first
keyword name not among the parameters raises `TypeError` (CPython:
"got an unexpected keyword argument"). -/
def bindKwargs (params kwargs : List String) : PyCallResult :=
  match kwargs.find? (fun k => !params.contains k) with
  | some k => PyCallResult.typeError k
  | none => PyCallResult.ok

/-- Parameters of `BaseScraper.__init__` besides `self`
(`base_scraper.py:33`): there are none. -/
def baseScraperInitParams : List String := []

/-- Keyword arguments `ScheduleScraper.__init__` passes to
`super().__init__` (`schedule_scraper.py:23`). -/
def scheduleScraperSuperKwargs : List String := ["base_url"]

/-- Outcome of evaluating `ScheduleScraper()`: the body of its `__init__`
immediately performs the `super().__init__(base_url=...)` call. -/
def scheduleScraperConstruct : PyCallResult :=
  bindKwargs baseScraperInitParams scheduleScraperSuperKwargs

/-! ## The fetch layer (`BaseScraper._fetch_html`, `base_scraper.py:78-140`)

The coroutine is modelled as a function of a script of per-attempt network
outcomes. Each invocation consumes one scripted attempt (ensure-session and
the rate-limit gate run first, then the GET). The function returns the trace
of observable events together with the final result.
-/

/-- Outcome of one HTTP attempt, as distinguished by `_fetch_html`:
a successful body, an `aiohttp.ClientError` (connection failure, timeout, or
the `raise_for_status` error for non-2xx statuses), or an HTTP 429 response
with its optional integer `Retry-After` header. -/
inductive Attempt where
  | success (body : String) : Attempt
  | transportError (msg : String) : Attempt
  | http429 (retryAfter : Option Nat) : Attempt
deriving DecidableEq

/-- Observable suspension/IO events performed by `_fetch_html`. -/
inductive FetchEvent where
  | rateLimitWait : FetchEvent
  | request : FetchEvent
  | backoffSleep (secs : Nat) : FetchEvent
  | cooldownSleep (secs : Nat) : FetchEvent
deriving DecidableEq

/-- Final result of `_fetch_html`: a body, a `ScraperError` raised after
exhausting transport retries, a re-raised `RateLimitError` after exhausting
429 retries, or the model artifact for an exhausted attempt script. -/
inductive FetchResult where
  | ok (body : String) : FetchResult
  | scraperError (msg : String) : FetchResult
  | rateLimitError (msg : String) : FetchResult
  | noMoreAttempts : FetchResult
deriving DecidableEq

/-- Message of the `ScraperError` raised at retry exhaustion
(`base_scraper.py:131`). -/
def scraperMsg (url : String) (maxRetries : Nat) (cause : String) : String :=
  "Failed to fetch " ++ url ++ " after " ++ toString maxRetries ++
    " retries: " ++ cause

/-- Message of the `RateLimitError` raised on a 429 (`base_scraper.py:111-112`):
the parsed `Retry-After` header, defaulting to 60, appears only here. -/
def rateLimitMsg (retryAfter : Nat) : String :=
  "Rate limited. Retry after " ++ toString retryAfter ++ "s"

/-- Model of `BaseScraper._fetch_html(url, retries)` run against a script of
attempt outcomes (`base_scraper.py:78-140`). Each call performs the
rate-limit gate and the GET; on `ClientError` it sleeps `2 ** retries`
seconds and recurses with `retries + 1` while `retries < max_retries`, else
raises `ScraperError` carrying the last cause; on a 429 it raises
`RateLimitError`, whose handler sleeps a fixed 60 seconds and recurses with
`retries + 1` while `retries < max_retries`, else re-raises. -/
def fetchHtml (maxRetries : Nat) (url : String) :
    List Attempt → Nat → List FetchEvent × FetchResult
  | [], _ => ([], FetchResult.noMoreAttempts)
  | Attempt.success body :: _, _ =>
    ([FetchEvent.rateLimitWait, FetchEvent.request], FetchResult.ok body)
  | Attempt.transportError msg :: rest, retries =>
    if retries < maxRetries then
      let r := fetchHtml maxRetries url rest (retries + 1)
      (FetchEvent.rateLimitWait :: FetchEvent.request ::
        FetchEvent.backoffSleep (2 ^ retries) :: r.1, r.2)
    else
      ([FetchEvent.rateLimitWait, FetchEvent.request],
        FetchResult.scraperError (scraperMsg url maxRetries msg))
  | Attempt.http429 ra :: rest, retries =>
    if retries < maxRetries then
      let r := fetchHtml maxRetries url rest (retries + 1)
      (FetchEvent.rateLimitWait :: FetchEvent.request ::
        FetchEvent.cooldownSleep 60 :: r.1, r.2)
    else
      ([FetchEvent.rateLimitWait, FetchEvent.request],
        FetchResult.rateLimitError (rateLimitMsg (ra.getD 60)))

/-! ## Query-string parsing (`urllib.parse.parse_qs` as used by the code) -/

/-- One `name=value` field of a query string, as kept by `parse_qs` with its
defaults: a field without `=` is skipped, and a field with an empty value is
skipped (`keep_blank_values=False`). The value is everything after the
first `=`. (Percent/plus decoding is not modelled; inputs are plain.) -/
def parseQsPair (pair : List Char) : Option (List Char × List Char) :=
  match splitOnceChar '=' pair with
  | none => none
  | some (name, value) => if value = [] then none else some (name, value)

/-- All values bound to `key` by `parse_qs(query)[key]`, in order. -/
def qsGet (query : List Char) (key : String) : List (List Char) :=
  ((splitOnChar '&' query).filterMap parseQsPair).filterMap
    (fun p => if p.1 = key.toList then some p.2 else none)

/-! ## The standings extractor (`TeamScraper`, `team_scraper.py`) -/

/-- The data the scrapers read from an HTML `<a>` element: its stripped text
and its `href` attribute (`link.get("href", "")` makes a missing attribute
the empty string). -/
structure PAnchor where
  text : String
  href : String
deriving DecidableEq

/-- The data the standings extractor reads from a `<td>` cell: its stripped
text and the first `<a>` inside it (`cell.find("a")`). -/
structure SCell where
  text : String
  anchor : Option PAnchor
deriving DecidableEq

/-- A cell with no text and no anchor; used only as the (unreachable)
default of guarded positional indexing. -/
def blankSCell : SCell := ⟨"", none⟩

/-- The record built for one standings row (`team_scraper.py:192-206`). -/
structure TeamStanding where
  team_id : Int
  name : String
  division : String
  games_played : Int
  wins : Int
  losses : Int
  ties : Int
  overtime_losses : Int
  points : Int
  streak : Option String
  tie_breaker : Option String
  league_id : Int
  season : Int
deriving DecidableEq

/-- `TeamScraper._safe_int` (`team_scraper.py:243-257`): Python `int()`,
with `ValueError`/`TypeError` mapped to `0`. -/
def standingsSafeInt (value : String) : Int :=
  match pyIntParse value with
  | some n => n
  | none => 0

/-- `TeamScraper._extract_team_id` (`team_scraper.py:217-241`): take the part
of `href` after the first `?`, run `parse_qs`, take the first `team` value
and `int()` it; every failure (no `?`, no non-blank `team` value,
`ValueError` from `int`) yields `None`. -/
def extractTeamId (href : String) : Option Int :=
  if href = "" then none
  else
    match afterChar '?' href.toList with
    | none => none
    | some query =>
      match (qsGet query "team").head? with
      | some v => pyIntParse (String.mk v)
      | none => none

/-- One iteration of the row loop of `TeamScraper._parse_standings_table`
(`team_scraper.py:173-213`): `none` means the row is skipped (`continue`).
Note `if not team_id:` in Python also drops an extracted id equal to `0`. -/
def parseStandingsRow (division : String) (leagueId season : Int)
    (cells : List SCell) : Option TeamStanding :=
  if cells.length < 8 then none
  else
    match (cells.getD 0 blankSCell).anchor with
    | none => none
    | some teamLink =>
      match extractTeamId teamLink.href with
      | none => none
      | some tid =>
        if tid = 0 then none
        else
          some {
            team_id := tid
            name := teamLink.text
            division := division
            games_played := standingsSafeInt (cells.getD 1 blankSCell).text
            wins := standingsSafeInt (cells.getD 2 blankSCell).text
            losses := standingsSafeInt (cells.getD 3 blankSCell).text
            ties := standingsSafeInt (cells.getD 4 blankSCell).text
            overtime_losses := standingsSafeInt (cells.getD 5 blankSCell).text
            points := standingsSafeInt (cells.getD 6 blankSCell).text
            streak := if cells.length > 7 then some (cells.getD 7 blankSCell).text else none
            tie_breaker := if cells.length > 8 then some (cells.getD 8 blankSCell).text else none
            league_id := leagueId
            season := season }

/-- `TeamScraper._parse_standings_table` (`team_scraper.py:146-215`): a table
is its list of `<tr>` rows, each the list of its `<td>` cells; the first row
(header) is skipped and the remaining rows are parsed, dropped rows
contributing nothing. (The early `if not rows: return` of the source equals
`drop 1` of the empty list.) -/
def parseStandingsTable (division : String) (leagueId season : Int)
    (rows : List (List SCell)) : List TeamStanding :=
  (rows.drop 1).filterMap (parseStandingsRow division leagueId season)

/-! ## Division-label search (`TeamScraper._find_division_name`) -/

/-- Scan a chain of sibling nodes, at most `bound` of them, for the first
node that has `get_text` and whose stripped text is non-empty and contains
`"Division"`. A node is `some t` when it has `get_text` yielding `t`, else
`none`; the list ending models `previous_sibling` becoming `None`. -/
def scanSiblings : Nat → List (Option String) → Option String
  | 0, _ => none
  | _ + 1, [] => none
  | bound + 1, node :: rest =>
    match node with
    | some t =>
      if t ≠ "" && strContains t "Division" then some t
      else scanSiblings bound rest
    | none => scanSiblings bound rest

/-- `TeamScraper._find_division_name` (`team_scraper.py:101-144`): scan up to
10 previous siblings of the table; if none matched and the table has a
parent, scan up to 5 of the parent's previous siblings. -/
def findDivisionName (prevSiblings : List (Option String))
    (parentPrev : Option (List (Option String))) : Option String :=
  match scanSiblings 10 prevSiblings with
  | some t => some t
  | none =>
    match parentPrev with
    | some chain => scanSiblings 5 chain
    | none => none

/-- The data `get_all_teams` reads from one `<table>` of the standings page:
its previous-sibling chain, its parent's previous-sibling chain (when it has
a parent), and its rows. -/
structure TableCtx where
  prevSiblings : List (Option String)
  parentPrev : Option (List (Option String))
  rows : List (List SCell)
deriving DecidableEq

/-- The table loop of `TeamScraper.get_all_teams` (`team_scraper.py:77-95`),
after the page has been fetched and its tables enumerated: a table whose
division label resolves contributes its parsed rows under that label; a
table whose label does not resolve contributes nothing (warning only). -/
def getAllTeams (tables : List TableCtx) (leagueId season : Int) :
    List TeamStanding :=
  (tables.map fun tc =>
    match findDivisionName tc.prevSiblings tc.parentPrev with
    | some division => parseStandingsTable division leagueId season tc.rows
    | none => []).flatten

/-! ## Date/time normalization (`ScheduleScraper._parse_datetime`)

`schedule_scraper.py:240-284` uses `datetime.strptime` with the formats
`"%a %b %d %Y"` and `"%I:%M %p"` and renders with `strftime("%Y-%m-%d")`
and `strftime("%H:%M")`. The relevant `_strptime` behaviour: directives
match as in CPython (`%a`/`%b`: case-insensitive abbreviated names; `%d`:
1-2 digits, value 1-31; `%Y`: exactly 4 digits; `%I`: 1-2 digits, value
1-12; `%M`: 1-2 digits, value 0-59; `%p`: case-insensitive AM/PM),
whitespace in the format matches a non-empty whitespace run, the match must
cover the whole input, the weekday is not checked against the date, and the
resulting `datetime(...)` construction raises `ValueError` when the day
exceeds the month's length. -/

/-- Split a character list on runs of whitespace, dropping empties. -/
def wsSplitAux (cur : List Char) : List Char → List (List Char)
  | [] => if cur = [] then [] else [cur.reverse]
  | c :: rest =>
    if c.isWhitespace then
      if cur = [] then wsSplitAux [] rest
      else cur.reverse :: wsSplitAux [] rest
    else wsSplitAux (c :: cur) rest

/-- Whitespace-run tokenization. -/
def wsSplit (l : List Char) : List (List Char) := wsSplitAux [] l

/-- No leading and no trailing whitespace: a format without edge whitespace
only matches such inputs. -/
def noEdgeWs (l : List Char) : Bool :=
  (match l.head? with | some c => !c.isWhitespace | none => true) &&
  (match l.getLast? with | some c => !c.isWhitespace | none => true)

/-- Lower-case a token (directive matching is case-insensitive). -/
def lowerL (l : List Char) : List Char := l.map Char.toLower

/-- `%a`: abbreviated weekday names of the C locale. -/
def weekdayOk (tok : List Char) : Bool :=
  ["mon", "tue", "wed", "thu", "fri", "sat", "sun"].any
    (fun w => lowerL tok = w.toList)

/-- `%b`: abbreviated month names of the C locale, to month number. -/
def monthNum (tok : List Char) : Option Nat :=
  let months := ["jan", "feb", "mar", "apr", "may", "jun",
                 "jul", "aug", "sep", "oct", "nov", "dec"]
  (months.findIdx? (fun m => lowerL tok = m.toList)).map (· + 1)

/-- A token of 1 to 2 decimal digits whose value lies in `[lo, hi]`. -/
def digitTokOk (lo hi : Nat) (tok : List Char) : Bool :=
  tok ≠ [] && tok.length ≤ 2 && tok.all Char.isDigit &&
    lo ≤ digitsToNat tok && digitsToNat tok ≤ hi

/-- `%Y`: exactly 4 decimal digits. -/
def yearTokOk (tok : List Char) : Bool :=
  tok.length = 4 && tok.all Char.isDigit

/-- Gregorian leap year. -/
def isLeap (y : Nat) : Bool :=
  (y % 4 = 0 && y % 100 ≠ 0) || y % 400 = 0

/-- Days in a month (the `datetime` constructor's validity bound). -/
def daysInMonth (y m : Nat) : Nat :=
  if m = 2 then (if isLeap y then 29 else 28)
  else if m = 4 || m = 6 || m = 9 || m = 11 then 30
  else 31

/-- `datetime.strptime(s, "%a %b %d %Y")`, reduced to the fields the code
uses: `some (year, month, day)` on success, `none` where Python raises
`ValueError`. -/
def strptimeDate (s : String) : Option (Nat × Nat × Nat) :=
  let l := s.toList
  if noEdgeWs l then
    match wsSplit l with
    | [wd, mon, day, yr] =>
      if weekdayOk wd then
        match monthNum mon with
        | some m =>
          if digitTokOk 1 31 day && yearTokOk yr then
            let d := digitsToNat day
            let y := digitsToNat yr
            if d ≤ daysInMonth y m then some (y, m, d) else none
          else none
        | none => none
      else none
    | _ => none
  else none

/-- `datetime.strptime(s, "%I:%M %p")`, reduced to `(hour24, minute)`. -/
def strptimeTime (s : String) : Option (Nat × Nat) :=
  let l := s.toList
  if noEdgeWs l then
    match wsSplit l with
    | [hm, ap] =>
      match splitOnChar ':' hm with
      | [htok, mtok] =>
        if digitTokOk 1 12 htok && digitTokOk 0 59 mtok &&
            (lowerL ap = "am".toList || lowerL ap = "pm".toList) then
          let h12 := digitsToNat htok
          let h := if lowerL ap = "pm".toList then
              (if h12 = 12 then 12 else h12 + 12)
            else
              (if h12 = 12 then 0 else h12)
          some (h, digitsToNat mtok)
        else none
      | _ => none
    | _ => none
  else none

/-- Zero-padded 2-digit rendering (as `%m`, `%d`, `%H`, `%M`). -/
def pad2 (n : Nat) : String :=
  if n < 10 then "0" ++ toString n else toString n

/-- Zero-padded 4-digit rendering (as `%Y`). -/
def pad4 (n : Nat) : String :=
  if n < 10 then "000" ++ toString n
  else if n < 100 then "00" ++ toString n
  else if n < 1000 then "0" ++ toString n
  else toString n

/-- The date half of `ScheduleScraper._parse_datetime`
(`schedule_scraper.py:254-273`): append the current calendar year to the
input, `strptime` it, and render `%Y-%m-%d`; on failure return the raw
input string. -/
def parseDateField (currentYear : Nat) (dateStr : String) : String :=
  match strptimeDate (dateStr ++ " " ++ toString currentYear) with
  | some (y, m, d) => pad4 y ++ "-" ++ pad2 m ++ "-" ++ pad2 d
  | none => dateStr

/-- The time half of `ScheduleScraper._parse_datetime`
(`schedule_scraper.py:275-282`): `strptime` with `"%I:%M %p"` and render
`%H:%M`; on failure return the raw input string. -/
def parseTimeField (timeStr : String) : String :=
  match strptimeTime timeStr with
  | some (h, m) => pad2 h ++ ":" ++ pad2 m
  | none => timeStr

/-- `ScheduleScraper._parse_datetime` (`schedule_scraper.py:240-284`),
parameterized by `datetime.now().year`. Every reachable path assigns a
string to each component (parsed or the raw fallback). -/
def parseDatetime (currentYear : Nat) (dateStr timeStr : String) :
    String × String :=
  (parseDateField currentYear dateStr, parseTimeField timeStr)

/-! ## The schedule extractor (`ScheduleScraper`, `schedule_scraper.py`) -/

/-- The data the schedule extractor reads from a `<td>` cell: its stripped
text and all `<a>` elements inside it (`cell.find_all("a")`; `find("a")` is
the head of that list). -/
structure SchCell where
  text : String
  anchors : List PAnchor
deriving DecidableEq

/-- A cell with no text and no anchors; default of guarded indexing. -/
def blankSchCell : SchCell := ⟨"", []⟩

/-- The record built for one schedule row (`schedule_scraper.py:151-167`). -/
structure ScheduledGame where
  game_id : Option Int
  team_id : Int
  date : String
  time : String
  rink : String
  league : String
  level : String
  away_team : String
  away_goals : Option Int
  home_team : String
  home_goals : Option Int
  is_home : Option Bool
  game_type : String
  status : String
  scoresheet_url : Option String
deriving DecidableEq

/-- `ScheduleScraper._safe_int` (`schedule_scraper.py:286-300`): Python
`int()`, with `ValueError`/`TypeError` mapped to `None`. -/
def scheduleSafeInt (value : String) : Option Int :=
  pyIntParse value

/-- `"game_id="` scan of one link inside the game-center cell
(`schedule_scraper.py:199-210`): when `href` contains `"game_id="`, take the
part after the first `?` (or the empty query when there is no `?`), run
`parse_qs`, and `int()` the first `game_id` value; any failure falls through
to the next link (`none`). -/
def anchorGameId (href : String) : Option Int :=
  if strContains href "game_id=" then
    let query := (afterChar '?' href.toList).getD []
    match (qsGet query "game_id").head? with
    | some v => pyIntParse (String.mk v)
    | none => none
  else none

/-- Python `str.isdigit` restricted to ASCII: non-empty and all digits. -/
def pyIsDigit (s : String) : Bool :=
  s.toList ≠ [] && s.toList.all Char.isDigit

/-- `ScheduleScraper._extract_game_id` (`schedule_scraper.py:180-217`): the
game-center cell is `cells[12]` when there are more than 12 cells, else
`cells[11]` when more than 11, else the id is `None`; the first link that
yields an id wins; otherwise the cell's plain text is used when it
`isdigit()`. -/
def extractGameId (cells : List SchCell) : Option Int :=
  let gameCenterCell : Option SchCell :=
    if cells.length > 12 then some (cells.getD 12 blankSchCell)
    else if cells.length > 11 then some (cells.getD 11 blankSchCell)
    else none
  match gameCenterCell with
  | none => none
  | some cell =>
    match cell.anchors.findSome? (fun a => anchorGameId a.href) with
    | some gid => some gid
    | none =>
      if pyIsDigit cell.text then some ((digitsToNat cell.text.toList : Nat) : Int)
      else none

/-- `ScheduleScraper._extract_scoresheet_url` (`schedule_scraper.py:219-238`):
first link of the cell; empty/missing `href` yields `None`; an `href` not
starting with `"http"` is prefixed with `base_url + "/"`. -/
def extractScoresheetUrl (baseUrl : String) (cell : SchCell) : Option String :=
  match cell.anchors.head? with
  | none => none
  | some link =>
    if link.href = "" then none
    else if isPrefixL "http".toList link.href.toList then some link.href
    else some (baseUrl ++ "/" ++ link.href)

/-- One iteration of the row loop of `ScheduleScraper._parse_schedule_table`
(`schedule_scraper.py:120-176`): `none` means the row is skipped. A score
cell's text is converted with `_safe_int` only when non-empty (Python string
truthiness), else the goal count is `None`; the status is `"completed"`
exactly when both goal counts are non-`None`. -/
def parseScheduleRow (baseUrl : String) (currentYear : Nat) (teamId : Int)
    (cells : List SchCell) : Option ScheduledGame :=
  if cells.length < 12 then none
  else
    let awayGoalsStr := (cells.getD 7 blankSchCell).text
    let homeGoalsStr := (cells.getD 9 blankSchCell).text
    let awayGoals := if awayGoalsStr ≠ "" then scheduleSafeInt awayGoalsStr else none
    let homeGoals := if homeGoalsStr ≠ "" then scheduleSafeInt homeGoalsStr else none
    let dt := parseDatetime currentYear (cells.getD 1 blankSchCell).text
      (cells.getD 2 blankSchCell).text
    some {
      game_id := extractGameId cells
      team_id := teamId
      date := dt.1
      time := dt.2
      rink := (cells.getD 3 blankSchCell).text
      league := (cells.getD 4 blankSchCell).text
      level := (cells.getD 5 blankSchCell).text
      away_team := (cells.getD 6 blankSchCell).text
      away_goals := awayGoals
      home_team := (cells.getD 8 blankSchCell).text
      home_goals := homeGoals
      is_home := none
      game_type := (cells.getD 10 blankSchCell).text
      status := if awayGoals.isSome && homeGoals.isSome then "completed" else "scheduled"
      scoresheet_url := extractScoresheetUrl baseUrl (cells.getD 11 blankSchCell) }

/-- `ScheduleScraper._parse_schedule_table` (`schedule_scraper.py:97-178`):
skip the header row, parse the rest, dropped rows contributing nothing. -/
def parseScheduleTable (baseUrl : String) (currentYear : Nat) (teamId : Int)
    (rows : List (List SchCell)) : List ScheduledGame :=
  (rows.drop 1).filterMap (parseScheduleRow baseUrl currentYear teamId)

/-- The post-fetch part of `ScheduleScraper.get_team_schedule`
(`schedule_scraper.py:79-91`), the fetch being abstracted into the already
parsed document: `soup.find("table")` is the head of the document's tables
in document order; no table yields the empty list (warning only), otherwise
the first table is parsed. -/
def getTeamSchedule (baseUrl : String) (currentYear : Nat) (teamId : Int)
    (tables : List (List (List SchCell))) : List ScheduledGame :=
  match tables.head? with
  | none => []
  | some table => parseScheduleTable baseUrl currentYear teamId table

/-! ## Concrete example inputs (used by witnesses) -/

/-- The standings row of spec §8: cells
`["TeamA", "", "3", "2", "0", "0", "6", "W2"]`, the first cell carrying the
team anchor. -/
def exC6Row : List SCell :=
  [⟨"TeamA", some ⟨"TeamA", "display-schedule?team=4784&season=72&league=1"⟩⟩,
   ⟨"", none⟩, ⟨"3", none⟩, ⟨"2", none⟩, ⟨"0", none⟩, ⟨"0", none⟩, ⟨"6", none⟩,
   ⟨"W2", none⟩]

/-- A standings row whose team anchor's `href` has no `team=` parameter. -/
def exNoTeamRow : List SCell :=
  ⟨"TeamB", some ⟨"TeamB", "display-schedule?season=72"⟩⟩ ::
    [⟨"3", none⟩, ⟨"2", none⟩, ⟨"0", none⟩, ⟨"0", none⟩, ⟨"0", none⟩,
     ⟨"6", none⟩, ⟨"W2", none⟩]

/-- A standings row with only 7 cells. -/
def exShortRow : List SCell :=
  [⟨"TeamA", some ⟨"TeamA", "display-schedule?team=4784"⟩⟩,
   ⟨"3", none⟩, ⟨"2", none⟩, ⟨"0", none⟩, ⟨"0", none⟩, ⟨"0", none⟩, ⟨"6", none⟩]

/-- A full standings row for the division-label witness. -/
def exDivRow : List SCell :=
  [⟨"TeamC", some ⟨"TeamC", "display-schedule?team=5001&season=72&league=1"⟩⟩,
   ⟨"3", none⟩, ⟨"2", none⟩, ⟨"1", none⟩, ⟨"0", none⟩, ⟨"0", none⟩, ⟨"7", none⟩,
   ⟨"W1", none⟩]

/-- The standing parsed from `exDivRow` under division
`"Adult Division 1 Standings"`, league 1, season 72. -/
def exDivStanding : TeamStanding :=
  { team_id := 5001, name := "TeamC", division := "Adult Division 1 Standings"
    games_played := 3, wins := 2, losses := 1, ties := 0, overtime_losses := 0
    points := 7, streak := some "W1", tie_breaker := none
    league_id := 1, season := 72 }

/-- A standings table whose division label sits in its single previous
sibling. -/
def exTc : TableCtx :=
  { prevSiblings := [some "Adult Division 1 Standings"]
    parentPrev := none
    rows := [[], exDivRow] }

/-- A schedule row (12 cells) of a game not yet played: both score cells
empty. -/
def exScheduledRow : List SchCell :=
  [⟨"1", []⟩, ⟨"Wed Sep 10", []⟩, ⟨"9:45 PM", []⟩, ⟨"San Jose Black (E)", []⟩,
   ⟨"SIAHL@SJ", []⟩, ⟨"Adult Division 1", []⟩, ⟨"Opponents", []⟩, ⟨"", []⟩,
   ⟨"Camels", []⟩, ⟨"", []⟩, ⟨"Regular 1", []⟩,
   ⟨"541086", [⟨"541086", "oss-scoresheet?game_id=541086&mode=display"⟩]⟩]

/-- The game parsed from `exScheduledRow` with base URL `"https://x"`,
current year 2025, team 4784. -/
def exScheduledGame : ScheduledGame :=
  { game_id := some 541086, team_id := 4784, date := "2025-09-10"
    time := "21:45", rink := "San Jose Black (E)", league := "SIAHL@SJ"
    level := "Adult Division 1", away_team := "Opponents", away_goals := none
    home_team := "Camels", home_goals := none, is_home := none
    game_type := "Regular 1", status := "scheduled"
    scoresheet_url := some "https://x/oss-scoresheet?game_id=541086&mode=display" }

/-- A schedule row whose away score cell holds the non-integer marker
`"FF"` and whose home score cell holds `"3"`. -/
def exFFRow : List SchCell :=
  [⟨"1", []⟩, ⟨"Wed Sep 10", []⟩, ⟨"9:45 PM", []⟩, ⟨"San Jose Black (E)", []⟩,
   ⟨"SIAHL@SJ", []⟩, ⟨"Adult Division 1", []⟩, ⟨"Opponents", []⟩, ⟨"FF", []⟩,
   ⟨"Camels", []⟩, ⟨"3", []⟩, ⟨"Regular 1", []⟩,
   ⟨"541086", [⟨"541086", "oss-scoresheet?game_id=541086&mode=display"⟩]⟩]

/-- The game parsed from `exFFRow` with base URL `"https://x"`, current
year 2025, team 4784. -/
def exFFGame : ScheduledGame :=
  { game_id := some 541086, team_id := 4784, date := "2025-09-10"
    time := "21:45", rink := "San Jose Black (E)", league := "SIAHL@SJ"
    level := "Adult Division 1", away_team := "Opponents", away_goals := none
    home_team := "Camels", home_goals := some 3, is_home := none
    game_type := "Regular 1", status := "scheduled"
    scoresheet_url := some "https://x/oss-scoresheet?game_id=541086&mode=display" }

/-! ## Theorems -/

/-- Claim C1: constructing the schedule extractor always raises.
`ScheduleScraper.__init__` calls `super().__init__(base_url=...)` while
`BaseScraper.__init__` accepts no argument besides `self`, so every
`ScheduleScraper()` invocation raises `TypeError` on the unexpected keyword
argument `base_url` before any method can run. -/
theorem schedule_scraper_init_type_error :
    scheduleScraperConstruct = PyCallResult.typeError "base_url" := by
  decide

/-- Claim C2 (amended): on an HTTP 429 the fetch layer takes the distinct
cool-down path — it always sleeps a fixed 60 seconds before re-entering the
fetch (regardless of the advertised `Retry-After`, which is parsed with
default 60 but used only in the `RateLimitError` message), and exhausting
the same retry ceiling re-raises the `RateLimitError`. -/
theorem fetch_429_fixed_cooldown (m : Nat) (url : String) (ra : Option Nat)
    (rest : List Attempt) (hm : 0 < m) :
    fetchHtml m url (Attempt.http429 ra :: rest) 0 =
      (FetchEvent.rateLimitWait :: FetchEvent.request ::
        FetchEvent.cooldownSleep 60 :: (fetchHtml m url rest 1).1,
        (fetchHtml m url rest 1).2)
  ∧ (∀ retries, ¬ retries < m →
      fetchHtml m url [Attempt.http429 ra] retries =
        ([FetchEvent.rateLimitWait, FetchEvent.request],
          FetchResult.rateLimitError (rateLimitMsg (ra.getD 60)))) := by
  constructor
  · simp [fetchHtml, hm]
  · intro retries h
    simp [fetchHtml, h]

/-- Claim C2, refuting the wait duration as stated: on a first-detection 429
advertising `Retry-After: 120`, the code performs a 60-second cool-down
sleep and no 120-second sleep. -/
theorem fetch_429_retry_after_counterexample :
    (fetchHtml 3 "u"
        [Attempt.http429 (some 120), Attempt.success "ok"] 0).1 =
      [FetchEvent.rateLimitWait, FetchEvent.request, FetchEvent.cooldownSleep 60,
       FetchEvent.rateLimitWait, FetchEvent.request]
  ∧ FetchEvent.cooldownSleep 120 ∉
      (fetchHtml 3 "u"
        [Attempt.http429 (some 120), Attempt.success "ok"] 0).1 := by
  decide

/-- Witness for `fetch_429_fixed_cooldown` at the configured default
`max_retries = 3`. -/
theorem fetch_429_witness :
    (0 < 3)
  ∧ fetchHtml 3 "u" [Attempt.http429 none] 3 =
      ([FetchEvent.rateLimitWait, FetchEvent.request],
        FetchResult.rateLimitError (rateLimitMsg 60)) :=
  ⟨by decide, (fetch_429_fixed_cooldown 3 "u" none [] (by decide)).2 3 (by decide)⟩

/-- Retry exhaustion, generalized over the current retry count: when the
script is entirely transport errors and the attempts exactly use up the
ceiling, the result is a `ScraperError` carrying the last cause. -/
theorem fetchHtml_transport_exhaust (m : Nat) (url : String) :
    ∀ (front : List String) (retries : Nat) (elast : String),
      retries + front.length = m →
      (fetchHtml m url ((front ++ [elast]).map Attempt.transportError) retries).2 =
        FetchResult.scraperError (scraperMsg url m elast) := by
  intro front
  induction front with
  | nil =>
    intro retries elast h
    simp only [List.length_nil, Nat.add_zero] at h
    subst h
    simp [fetchHtml]
  | cons a tl ih =>
    intro retries elast h
    have hr : retries < m := by
      simp only [List.length_cons] at h
      omega
    simp only [List.cons_append, List.map_cons, fetchHtml, hr, if_true]
    exact ih (retries + 1) elast (by simp only [List.length_cons] at h; omega)

/-- Claim C3: a fetch whose first two attempts fail with transport errors
and whose third succeeds returns the successful body after exactly two
backoff sleeps of 1s and 2s, each retry re-entering the full path with a
fresh rate-limit wait; and when the initial attempt plus `max_retries`
retries all fail with transport errors, a `ScraperError` carrying the last
cause is raised. -/
theorem fetch_retry_backoff (m : Nat) (url : String) (hm : 2 ≤ m) :
    (∀ e1 e2 b : String,
      fetchHtml m url
          [Attempt.transportError e1, Attempt.transportError e2, Attempt.success b] 0 =
        ([FetchEvent.rateLimitWait, FetchEvent.request, FetchEvent.backoffSleep 1,
          FetchEvent.rateLimitWait, FetchEvent.request, FetchEvent.backoffSleep 2,
          FetchEvent.rateLimitWait, FetchEvent.request], FetchResult.ok b))
  ∧ (∀ (front : List String) (elast : String), front.length = m →
      (fetchHtml m url ((front ++ [elast]).map Attempt.transportError) 0).2 =
        FetchResult.scraperError (scraperMsg url m elast)) := by
  constructor
  · intro e1 e2 b
    have h0 : 0 < m := by omega
    have h1 : 1 < m := by omega
    simp [fetchHtml, h0, h1]
  · intro front elast h
    exact fetchHtml_transport_exhaust m url front 0 elast (by omega)

/-- Witness for `fetch_retry_backoff` at the configured default
`max_retries = 3`. -/
theorem fetch_retry_witness :
    (2 ≤ 3)
  ∧ fetchHtml 3 "u"
        [Attempt.transportError "a", Attempt.transportError "b", Attempt.success "ok"] 0 =
      ([FetchEvent.rateLimitWait, FetchEvent.request, FetchEvent.backoffSleep 1,
        FetchEvent.rateLimitWait, FetchEvent.request, FetchEvent.backoffSleep 2,
        FetchEvent.rateLimitWait, FetchEvent.request], FetchResult.ok "ok")
  ∧ (fetchHtml 3 "u"
        ((["a", "b", "c"] ++ ["d"]).map Attempt.transportError) 0).2 =
      FetchResult.scraperError (scraperMsg "u" 3 "d") :=
  ⟨by decide, (fetch_retry_backoff 3 "u" (by decide)).1 "a" "b" "ok",
    (fetch_retry_backoff 3 "u" (by decide)).2 ["a", "b", "c"] "d" rfl⟩

/-- The derived-status expression of `schedule_scraper.py:143` equals
`"completed"` exactly when both goal counts are present. -/
theorem status_iff (a b : Option Int) :
    ((if a.isSome && b.isSome then "completed" else "scheduled") = "completed") ↔
      (a.isSome ∧ b.isSome) := by
  by_cases ha : a.isSome <;> by_cases hb : b.isSome <;> simp [ha, hb]

/-- The derived-status expression of `schedule_scraper.py:143` is
`"scheduled"` as soon as one goal count is absent. -/
theorem status_of_none (a b : Option Int) (h : a = none ∨ b = none) :
    (if a.isSome && b.isSome then "completed" else "scheduled") = "scheduled" := by
  rcases h with h | h <;> subst h <;> simp

/-- Claim C4: in a parsed schedule row, an empty score cell yields a null
goal count, and the status is `"completed"` iff both goal counts are
non-null. -/
theorem schedule_scores_empty_null (baseUrl : String) (year : Nat)
    (teamId : Int) (cells : List SchCell) (g : ScheduledGame)
    (h : parseScheduleRow baseUrl year teamId cells = some g) :
    ((cells.getD 7 blankSchCell).text = "" → g.away_goals = none)
  ∧ ((cells.getD 9 blankSchCell).text = "" → g.home_goals = none)
  ∧ (g.status = "completed" ↔ g.away_goals.isSome ∧ g.home_goals.isSome) := by
  unfold parseScheduleRow at h
  split at h
  · exact absurd h (by simp)
  · rw [Option.some.injEq] at h
    subst h
    refine ⟨?_, ?_, ?_⟩
    · intro he
      show (if (cells.getD 7 blankSchCell).text ≠ "" then
          scheduleSafeInt (cells.getD 7 blankSchCell).text else none) = none
      rw [if_neg (not_not_intro he)]
    · intro he
      show (if (cells.getD 9 blankSchCell).text ≠ "" then
          scheduleSafeInt (cells.getD 9 blankSchCell).text else none) = none
      rw [if_neg (not_not_intro he)]
    · exact status_iff _ _

/-- Witness for `schedule_scores_empty_null` on a concrete not-yet-played
row. -/
theorem schedule_scores_witness :
    parseScheduleRow "https://x" 2025 4784 exScheduledRow = some exScheduledGame
  ∧ exScheduledGame.away_goals = none
  ∧ exScheduledGame.home_goals = none
  ∧ (exScheduledGame.status = "completed" ↔
      exScheduledGame.away_goals.isSome ∧ exScheduledGame.home_goals.isSome) :=
  ⟨by decide,
   (schedule_scores_empty_null "https://x" 2025 4784 exScheduledRow
      exScheduledGame (by decide)).1 (by decide),
   (schedule_scores_empty_null "https://x" 2025 4784 exScheduledRow
      exScheduledGame (by decide)).2.1 (by decide),
   (schedule_scores_empty_null "https://x" 2025 4784 exScheduledRow
      exScheduledGame (by decide)).2.2⟩

/-- Claim C10: the null-goal fallback is not limited to empty cells — any
score-cell text Python `int()` rejects (e.g. `"FF"`) yields a null goal
count and a `"scheduled"` status, whereas the standings extractor maps the
same unparseable text to `0`. -/
theorem schedule_nonint_score_null (baseUrl : String) (year : Nat)
    (teamId : Int) (cells : List SchCell) (g : ScheduledGame)
    (h : parseScheduleRow baseUrl year teamId cells = some g) :
    (pyIntParse (cells.getD 7 blankSchCell).text = none →
      g.away_goals = none ∧ g.status = "scheduled")
  ∧ (pyIntParse (cells.getD 9 blankSchCell).text = none →
      g.home_goals = none ∧ g.status = "scheduled")
  ∧ scheduleSafeInt "FF" = none
  ∧ standingsSafeInt "FF" = 0 := by
  unfold parseScheduleRow at h
  split at h
  · exact absurd h (by simp)
  · rw [Option.some.injEq] at h
    subst h
    refine ⟨?_, ?_, by decide, by decide⟩
    · intro hp
      have hag : (if (cells.getD 7 blankSchCell).text ≠ "" then
          scheduleSafeInt (cells.getD 7 blankSchCell).text else none) = none := by
        split
        · exact hp
        · rfl
      exact ⟨hag, status_of_none _ _ (Or.inl hag)⟩
    · intro hp
      have hhg : (if (cells.getD 9 blankSchCell).text ≠ "" then
          scheduleSafeInt (cells.getD 9 blankSchCell).text else none) = none := by
        split
        · exact hp
        · rfl
      exact ⟨hhg, status_of_none _ _ (Or.inr hhg)⟩

/-- Witness for `schedule_nonint_score_null` on a concrete forfeit-marked
row. -/
theorem schedule_nonint_score_witness :
    parseScheduleRow "https://x" 2025 4784 exFFRow = some exFFGame
  ∧ exFFGame.away_goals = none
  ∧ exFFGame.status = "scheduled" :=
  ⟨by decide,
   ((schedule_nonint_score_null "https://x" 2025 4784 exFFRow exFFGame
      (by decide)).1 (by decide)).1,
   ((schedule_nonint_score_null "https://x" 2025 4784 exFFRow exFFGame
      (by decide)).1 (by decide)).2⟩

/-- Claim C9: a schedule page without any table element yields the empty
game list rather than an error. -/
theorem schedule_no_table_empty (baseUrl : String) (year : Nat) (teamId : Int) :
    getTeamSchedule baseUrl year teamId [] = [] := rfl

/-- Claim C8: a standings row with fewer than 8 cells is skipped, and a
table gains nothing from such a row. -/
theorem standings_short_row_excluded (d : String) (l s : Int)
    (cells : List SCell) (h : cells.length < 8) :
    parseStandingsRow d l s cells = none
  ∧ ∀ hdr rest, parseStandingsTable d l s (hdr :: (rest ++ [cells])) =
      parseStandingsTable d l s (hdr :: rest) := by
  have hnone : parseStandingsRow d l s cells = none := by
    unfold parseStandingsRow
    rw [if_pos h]
  refine ⟨hnone, ?_⟩
  intro hdr rest
  simp [parseStandingsTable, List.filterMap_append, hnone]

/-- Witness for `standings_short_row_excluded` on a 7-cell row. -/
theorem standings_short_row_witness :
    List.length exShortRow < 8
  ∧ parseStandingsRow "D" 1 72 exShortRow = none :=
  ⟨by decide, (standings_short_row_excluded "D" 1 72 exShortRow (by decide)).1⟩

/-- Claim C6: standings parsing is lenient on counters and strict on the
team id — any counter text Python `int()` rejects becomes `0` (in
particular the spec's row with an empty games-played cell parses with
`games_played = 0`), while a row whose team anchor yields no team id is
dropped entirely. -/
theorem standings_lenient_strict_asymmetry (d : String) (l s : Int) :
    (∀ str, pyIntParse str = none → standingsSafeInt str = 0)
  ∧ (parseStandingsRow d l s exC6Row).map TeamStanding.games_played = some 0
  ∧ (∀ (c0 : SCell) (rest : List SCell) (a : PAnchor),
      c0.anchor = some a → extractTeamId a.href = none →
      parseStandingsRow d l s (c0 :: rest) = none) := by
  refine ⟨?_, ?_, ?_⟩
  · intro str hp
    unfold standingsSafeInt
    rw [hp]
  · rfl
  · intro c0 rest a ha hid
    unfold parseStandingsRow
    rcases Nat.lt_or_ge (c0 :: rest).length 8 with hl | hl
    · rw [if_pos hl]
    · rw [if_neg (Nat.not_lt.mpr hl)]
      simp only [List.getD_cons_zero, ha, hid]

/-- Witness for `standings_lenient_strict_asymmetry`: the unparseable
counter `"FF"` resolves to `0`, and a concrete row whose anchor `href`
lacks `team=` is dropped. -/
theorem standings_asymmetry_witness :
    standingsSafeInt "FF" = 0
  ∧ parseStandingsRow "D" 1 72 exNoTeamRow = none :=
  ⟨(standings_lenient_strict_asymmetry "D" 1 72).1 "FF" (by decide),
   (standings_lenient_strict_asymmetry "D" 1 72).2.2
     ⟨"TeamB", some ⟨"TeamB", "display-schedule?season=72"⟩⟩
     [⟨"3", none⟩, ⟨"2", none⟩, ⟨"0", none⟩, ⟨"0", none⟩, ⟨"0", none⟩,
      ⟨"6", none⟩, ⟨"W2", none⟩]
     ⟨"TeamB", "display-schedule?season=72"⟩ rfl (by decide)⟩

/-- The bounded sibling scan only ever inspects the first `bound` nodes of
the chain. -/
theorem scanSiblings_take (b : Nat) :
    ∀ chain : List (Option String),
      scanSiblings b chain = scanSiblings b (chain.take b) := by
  induction b with
  | zero => intro chain; rfl
  | succ b ih =>
    intro chain
    cases chain with
    | nil => rfl
    | cons node rest =>
      cases node with
      | none => simpa [scanSiblings] using ih rest
      | some t =>
        simp only [scanSiblings, List.take_succ_cons]
        split
        · rfl
        · exact ih rest

/-- The division-label search depends only on the first 10 previous
siblings and the first 5 of the parent's previous siblings. -/
theorem findDivisionName_take (prev : List (Option String))
    (pp : Option (List (Option String))) :
    findDivisionName prev pp =
      findDivisionName (prev.take 10) (pp.map (List.take 5)) := by
  unfold findDivisionName
  rw [scanSiblings_take 10 prev, scanSiblings_take 10 (prev.take 10),
    List.take_take]
  cases pp with
  | none => rfl
  | some chain =>
    simp only [Option.map_some']
    rw [scanSiblings_take 5 chain, scanSiblings_take 5 (chain.take 5),
      List.take_take]

/-- A parsed standings row carries the division label it was parsed
under. -/
theorem parseStandingsRow_division (d : String) (l s : Int)
    (cells : List SCell) (ts : TeamStanding)
    (h : parseStandingsRow d l s cells = some ts) : ts.division = d := by
  unfold parseStandingsRow at h
  split at h
  · exact absurd h (by simp)
  · split at h
    · exact absurd h (by simp)
    · split at h
      · exact absurd h (by simp)
      · split at h
        · exact absurd h (by simp)
        · rw [Option.some.injEq] at h
          subst h
          rfl

/-- Every row of a parsed standings table carries that table's division
label. -/
theorem parseStandingsTable_division (d : String) (l s : Int)
    (rows : List (List SCell)) :
    ∀ ts ∈ parseStandingsTable d l s rows, ts.division = d := by
  intro ts hts
  simp only [parseStandingsTable, List.mem_filterMap] at hts
  obtain ⟨row, _, hrow⟩ := hts
  exact parseStandingsRow_division d l s row ts hrow

/-- Claim C7: the division label is searched within at most 10 previous
siblings and then at most 5 of the parent's previous siblings; a table
whose label does not resolve contributes no rows; and every row of a
resolved table carries the found text as its division label. -/
theorem division_search_bounds (tc : TableCtx) (l s : Int) :
    findDivisionName tc.prevSiblings tc.parentPrev =
      findDivisionName (tc.prevSiblings.take 10) (tc.parentPrev.map (List.take 5))
  ∧ (findDivisionName tc.prevSiblings tc.parentPrev = none →
      getAllTeams [tc] l s = [])
  ∧ (∀ d, findDivisionName tc.prevSiblings tc.parentPrev = some d →
      ∀ ts ∈ getAllTeams [tc] l s, ts.division = d) := by
  refine ⟨findDivisionName_take tc.prevSiblings tc.parentPrev, ?_, ?_⟩
  · intro h
    simp [getAllTeams, h]
  · intro d h ts hts
    simp only [getAllTeams, List.map_cons, List.map_nil, h,
      List.flatten, List.append_nil] at hts
    exact parseStandingsTable_division d l s tc.rows ts hts

/-- Witness for `division_search_bounds` on a concrete table whose label
sits in its previous sibling. -/
theorem division_search_witness :
    exDivStanding.division = "Adult Division 1 Standings" :=
  (division_search_bounds exTc 1 72).2.2 "Adult Division 1 Standings"
    (by decide) exDivStanding (by decide)

/-- Claim C5: `"Wed Sep 10"` parsed when the current year is 2025 yields
`"2025-09-10"` (the current year is used as-is, also for a January date —
no season-boundary correction); `"9:45 PM"` yields `"21:45"`; and every
date or time string `strptime` rejects is returned verbatim. -/
theorem schedule_datetime_normalization :
    parseDateField 2025 "Wed Sep 10" = "2025-09-10"
  ∧ parseDateField 2025 "Tue Jan 21" = "2025-01-21"
  ∧ parseDateField 2026 "Wed Sep 10" = "2026-09-10"
  ∧ parseTimeField "9:45 PM" = "21:45"
  ∧ (∀ (y : Nat) (d : String), strptimeDate (d ++ " " ++ toString y) = none →
      parseDateField y d = d)
  ∧ (∀ t : String, strptimeTime t = none → parseTimeField t = t) := by
  refine ⟨by decide, by decide, by decide, by decide, ?_, ?_⟩
  · intro y d h
    unfold parseDateField
    rw [h]
  · intro t h
    unfold parseTimeField
    rw [h]

/-- Witness for `schedule_datetime_normalization` on concrete unparseable
inputs. -/
theorem schedule_datetime_witness :
    strptimeDate ("TBD" ++ " " ++ toString 2025) = none
  ∧ parseDateField 2025 "TBD" = "TBD"
  ∧ strptimeTime "9:99 XM" = none
  ∧ parseTimeField "9:99 XM" = "9:99 XM" :=
  ⟨by decide, schedule_datetime_normalization.2.2.2.2.1 2025 "TBD" (by decide),
   by decide, schedule_datetime_normalization.2.2.2.2.2 "9:99 XM" (by decide)⟩

end Siahl
